import Mathlib

/-!
Verification of the snapm snapshot-manager core (`snapm/_snapm.py` and
`snapm/command.py`) against its natural-language specification.

The Python data model is shallowly embedded: classes become structures,
properties become functions, exceptions become an explicit error type
returned through `Except`, and the backend provider plugin is modelled by
the observable values it reports (a snapshot's `status`, `autoactivate`)
together with an oracle field recording whether a mutating provider call
raises.  Machine-level details of Python's `uuid5` (SHA-1 hashing) are out
of scope: a version-5 UUID is modelled as the (namespace, name) pair that
determines it, the usual idealisation that hash collisions do not occur.
-/

namespace Snapm

/-! ## Errors (`snapm/_snapm.py` exception hierarchy, plus the Python
builtins that appear in the code under verification) -/

/-- Subclasses of `SnapmError` defined in `_snapm.py`. -/
inductive SnapmErrKind
  | callout
  | noSpace
  | noProvider
  | alreadyExists
  | path
  | notFound
  | invalidIdentifier
deriving DecidableEq

/-- Exceptions raised by the code under verification: the `SnapmError`
family and the Python builtins `ValueError`, `TypeError`, `OSError`. -/
inductive PyErr
  | valueError (msg : String)
  | typeError (msg : String)
  | osError (msg : String)
  | snapm (kind : SnapmErrKind) (msg : String)
deriving DecidableEq

/-- True exactly for the `SnapmInvalidIdentifierError` exception. -/
def PyErr.isInvalidIdentifier : PyErr → Bool
  | .snapm .invalidIdentifier _ => true
  | _ => false

/-! ## Decimal rendering: model of Python `str` on a nonnegative integer,
used by `SnapshotSet.__init__` in `name + str(timestamp)` -/

/-- Decimal digit character: digit `d` maps to the character of code
`48 + d`, as in Python's `str` of an integer. -/
def digitChar (d : Nat) : Char := Char.ofNat (48 + d)

/-- Little-endian list of decimal digits of `n` (empty for `n = 0`). -/
def decDigits : Nat → List Nat
  | 0 => []
  | n + 1 => ((n + 1) % 10) :: decDigits ((n + 1) / 10)
decreasing_by exact Nat.div_lt_self (Nat.succ_pos n) (by decide)

/-- Model of Python `str(n)` for a nonnegative integer `n`: the decimal
digits of `n`, most significant first, with `"0"` for zero. -/
def pyStr (n : Nat) : String :=
  if n = 0 then "0" else String.mk ((decDigits n).reverse.map digitChar)

/-! ## UUIDs (`uuid5` calls in `_snapm.py`) -/

/-- Version-5 UUID, modelled as the (namespace, name) pair that
determines it; Python's SHA-1 derivation is injective on this pair under
the standard no-collision idealisation. -/
structure PyUUID where
  ns : String
  data : String
deriving DecidableEq

/-- Model of Python `uuid5(namespace, data)`. -/
def uuid5 (ns data : String) : PyUUID := ⟨ns, data⟩

/-- Namespace constant `NAMESPACE_SNAPSHOT_SET` from `_snapm.py`. -/
def NAMESPACE_SNAPSHOT_SET : String := "952f0e38-24a1-406d-adf6-0e9fb3c707d8"

/-- Namespace constant `NAMESPACE_SNAPSHOT` from `_snapm.py`. -/
def NAMESPACE_SNAPSHOT : String := "c17d07c7-1482-43b7-9b3c-12d490622d93"

/-! ## Snapshot status (`SnapStatus` enum) -/

/-- The `SnapStatus` enum: Active, Inactive or Invalid. -/
inductive SnapStatus
  | ACTIVE
  | INACTIVE
  | INVALID
deriving DecidableEq

/-- Severity used to express the worst-case-wins ordering
INVALID > INACTIVE > ACTIVE on statuses. -/
def SnapStatus.sev : SnapStatus → Nat
  | .ACTIVE => 1
  | .INACTIVE => 2
  | .INVALID => 3

/-- The worse of two statuses under the ordering INVALID > INACTIVE > ACTIVE. -/
def SnapStatus.worst (a b : SnapStatus) : SnapStatus :=
  if a.sev < b.sev then b else a

/-! ## Snapshot (`Snapshot` class) -/

/-- One member snapshot.  The constructor fields of `Snapshot.__init__`
(`name`, `snapset_name`, `origin`, `timestamp`, `mount_point`, `provider`)
are stored directly; the backend-resolved properties `status` and
`autoactivate` are modelled as the values the provider plugin currently
reports; `set_autoactivate_raises` is the oracle recording whether the
provider's `set_autoactivate` call for this snapshot raises a
`SnapmError` (and of which kind). -/
structure Snapshot where
  name : String
  snapset_name : String
  origin : String
  timestamp : Nat
  mount_point : String
  provider : String
  status : SnapStatus
  autoactivate : Bool
  set_autoactivate_raises : Option SnapmErrKind
deriving DecidableEq

/-- The snapshot's UUID: `uuid5(NAMESPACE_SNAPSHOT, name)` as assigned in
`Snapshot.__init__`. -/
def Snapshot.uuid (s : Snapshot) : PyUUID := uuid5 NAMESPACE_SNAPSHOT s.name

/-- Method `Snapshot.set_autoactivate`: delegates to the provider plugin,
which either raises a `SnapmError` (oracle field) or records the new
autoactivation state. -/
def Snapshot.set_autoactivate (s : Snapshot) (auto : Bool) : Except PyErr Snapshot :=
  match s.set_autoactivate_raises with
  | some k => .error (.snapm k "setting autoactivation failed")
  | none => .ok { s with autoactivate := auto }

/-! ## SnapshotSet (`SnapshotSet` class) -/

/-- A snapshot set: the constructor arguments of `SnapshotSet.__init__`.
The derived attributes (`uuid`, the `_by_mount_point` index, `status`,
`autoactivate`, ...) are functions of these fields, exactly as the Python
class computes them from `_name`, `_timestamp` and `_snapshots`. -/
structure SnapshotSet where
  name : String
  timestamp : Nat
  snapshots : List Snapshot
deriving DecidableEq

/-- The set UUID assigned in `SnapshotSet.__init__`:
`uuid5(NAMESPACE_SNAPSHOT_SET, name + str(timestamp))`. -/
def SnapshotSet.uuid (ss : SnapshotSet) : PyUUID :=
  uuid5 NAMESPACE_SNAPSHOT_SET (ss.name ++ pyStr ss.timestamp)

/-- Property `SnapshotSet.nr_snapshots`. -/
def SnapshotSet.nr_snapshots (ss : SnapshotSet) : Nat := ss.snapshots.length

/-- Property `SnapshotSet.mount_points`. -/
def SnapshotSet.mount_points (ss : SnapshotSet) : List String :=
  ss.snapshots.map (fun s => s.mount_point)

/-- Property `SnapshotSet.status`: INVALID if any member's status is
INVALID, else INACTIVE if any member's status is INACTIVE, else ACTIVE. -/
def SnapshotSet.status (ss : SnapshotSet) : SnapStatus :=
  if ss.snapshots.any (fun s => s.status == SnapStatus.INVALID) then SnapStatus.INVALID
  else if ss.snapshots.any (fun s => s.status == SnapStatus.INACTIVE) then SnapStatus.INACTIVE
  else SnapStatus.ACTIVE

/-- Property getter `SnapshotSet.autoactivate`: `all(s.autoactivate for s
in self.snapshots)`. -/
def SnapshotSet.autoactivate (ss : SnapshotSet) : Bool :=
  ss.snapshots.all (fun s => s.autoactivate)

/-- Property setter `SnapshotSet.autoactivate`: iterate over the members
calling `set_autoactivate`; a member whose call raises a `SnapmError` is
logged and left unchanged, and the loop continues with the remaining
members. -/
def SnapshotSet.set_autoactivate (ss : SnapshotSet) (value : Bool) : SnapshotSet :=
  { ss with
    snapshots := ss.snapshots.map (fun s =>
      match s.set_autoactivate value with
      | .ok s2 => s2
      | .error _ => s) }

/-! ## The `_by_mount_point` index and `snapshot_by_mount_point` -/

/-- Python dict over string keys holding snapshots, as an entry list in
insertion order. -/
abbrev PyDict := List (String × Snapshot)

/-- Python dict assignment `d[k] = v`: replace the entry if the key is
present, otherwise append a new entry. -/
def dictSet (d : PyDict) (k : String) (v : Snapshot) : PyDict :=
  if d.any (fun p => p.1 == k) then
    d.map (fun p => if p.1 == k then (k, v) else p)
  else d ++ [(k, v)]

/-- Python dict lookup `d[k]` (as an option). -/
def dictGet? (d : PyDict) (k : String) : Option Snapshot :=
  (d.find? (fun p => p.1 == k)).map (fun p => p.2)

/-- The `_by_mount_point` index built by the loop at the end of
`SnapshotSet.__init__`: `for snapshot in self._snapshots:
self._by_mount_point[snapshot.mount_point] = snapshot`. -/
def SnapshotSet.by_mount_point (ss : SnapshotSet) : PyDict :=
  ss.snapshots.foldl (fun d s => dictSet d s.mount_point s) []

/-- Method `SnapshotSet.snapshot_by_mount_point`: return the indexed
snapshot for `mount_point`, or raise `SnapmNotFoundError`. -/
def SnapshotSet.snapshot_by_mount_point (ss : SnapshotSet) (mount_point : String) :
    Except PyErr Snapshot :=
  match dictGet? ss.by_mount_point mount_point with
  | some s => .ok s
  | none => .error (.snapm .notFound
      ("Mount point " ++ mount_point ++ " not found in snapset " ++ ss.name))

/-! ## Selection (`Selection` class) -/

/-- The nine selection attributes of the `Selection` class. -/
inductive SelAttr
  | name
  | uuid
  | timestamp
  | nr_snapshots
  | mount_points
  | origin
  | mount_point
  | snapshot_name
  | snapshot_uuid
deriving DecidableEq

/-- Attribute name strings, as used in the error message built by
`check_valid_selection`. -/
def SelAttr.str : SelAttr → String
  | .name => "name"
  | .uuid => "uuid"
  | .timestamp => "timestamp"
  | .nr_snapshots => "nr_snapshots"
  | .mount_points => "mount_points"
  | .origin => "origin"
  | .mount_point => "mount_point"
  | .snapshot_name => "snapshot_name"
  | .snapshot_uuid => "snapshot_uuid"

/-- Class attribute `Selection.snapshot_set_attrs`. -/
def snapshot_set_attrs : List SelAttr :=
  [.name, .uuid, .timestamp, .nr_snapshots, .mount_points]

/-- Class attribute `Selection.snapshot_attrs`. -/
def snapshot_attrs : List SelAttr :=
  [.origin, .mount_point, .snapshot_name, .snapshot_uuid]

/-- Class attribute `Selection.all_attrs = snapshot_set_attrs + snapshot_attrs`. -/
def all_attrs : List SelAttr := snapshot_set_attrs ++ snapshot_attrs

/-- Selection criteria: each field is `None` (no constraint) or a value,
as set by `Selection.__init__`. -/
structure Selection where
  name : Option String
  uuid : Option String
  timestamp : Option Nat
  nr_snapshots : Option Nat
  mount_points : Option (List String)
  origin : Option String
  mount_point : Option String
  snapshot_name : Option String
  snapshot_uuid : Option String
deriving DecidableEq

/-- The empty selection: every field `None` (all `Selection.__init__`
defaults). -/
def Selection.none : Selection :=
  ⟨Option.none, Option.none, Option.none, Option.none, Option.none,
   Option.none, Option.none, Option.none, Option.none⟩

/-- A selection with only `name` set, as built by `Selection(name=n)`. -/
def Selection.ofName (n : String) : Selection :=
  { Selection.none with name := some n }

/-- Private helper `Selection.__attr_has_value`: the attribute is defined
and not `None`. -/
def Selection.attrHasValue (sel : Selection) : SelAttr → Bool
  | .name => sel.name.isSome
  | .uuid => sel.uuid.isSome
  | .timestamp => sel.timestamp.isSome
  | .nr_snapshots => sel.nr_snapshots.isSome
  | .mount_points => sel.mount_points.isSome
  | .origin => sel.origin.isSome
  | .mount_point => sel.mount_point.isSome
  | .snapshot_name => sel.snapshot_name.isSome
  | .snapshot_uuid => sel.snapshot_uuid.isSome

/-- Method `Selection.check_valid_selection(snapshot_set=, snapshot=)`:
collect the attributes that carry a value but are outside the allowed
scope; if any exist, raise `ValueError` with the joined attribute names,
otherwise return `None`. -/
def Selection.check_valid_selection (sel : Selection)
    (snapshot_set snapshot : Bool) : Except PyErr Unit :=
  let valid_attrs :=
    (if snapshot_set then snapshot_set_attrs else []) ++
      (if snapshot then snapshot_attrs else [])
  let invalid_attrs :=
    all_attrs.filter (fun a => sel.attrHasValue a && !(valid_attrs.contains a))
  if invalid_attrs.isEmpty then .ok ()
  else .error (.valueError ("Invalid criteria for selection type: " ++
    String.intercalate ", " (invalid_attrs.map SelAttr.str)))

/-- Method `Selection.is_single`: true iff the `name` or `uuid` field is
set. -/
def Selection.is_single (sel : Selection) : Bool :=
  sel.name.isSome || sel.uuid.isSome

/-! ## Manager model

The `snapm.manager` module is not part of the sources under verification
(only `_snapm.py` and `command.py` are), so the Manager operations that
`command.py` calls are modelled from the spec, as small transition
functions over the list of existing snapshot sets. -/

/-- Manager state: the snapshot sets currently discoverable from the
backends.  Modelled from the spec: the Manager holds no independent
persisted ledger beyond the sets themselves. -/
structure ManagerState where
  sets : List SnapshotSet
deriving DecidableEq

/-- Modelled from the spec: a `SnapshotSet` matches a `Selection` iff
every set-level field set on the Selection equals the corresponding
candidate attribute (the missing `snapm.manager` matching code).  The
`uuid` criterion compares against the set UUID's data rendering. -/
def selectionMatches (sel : Selection) (ss : SnapshotSet) : Bool :=
  (match sel.name with
   | some n => ss.name == n
   | Option.none => true) &&
  (match sel.uuid with
   | some u => ss.uuid.data == u
   | Option.none => true) &&
  (match sel.timestamp with
   | some t => ss.timestamp == t
   | Option.none => true) &&
  (match sel.nr_snapshots with
   | some k => ss.nr_snapshots == k
   | Option.none => true) &&
  (match sel.mount_points with
   | some mps => ss.mount_points == mps
   | Option.none => true)

/-- Modelled from the spec: `Manager.create_snapshot_set` fails with
`SnapmExistsError` when a set of that name already exists, and otherwise
creates one member snapshot per mount point, all sharing one timestamp
captured at the start of the call, and records the new set. -/
def mgr_create_snapshot_set (st : ManagerState) (name : String)
    (mount_points : List String) (now : Nat) :
    Except PyErr (SnapshotSet × ManagerState) :=
  if st.sets.any (fun ss => ss.name == name) then
    .error (.snapm .alreadyExists ("Snapshot set " ++ name ++ " already exists"))
  else
    let snaps := mount_points.map (fun mp =>
      Snapshot.mk (name ++ "-" ++ mp) name mp now mp "plugin"
        SnapStatus.INACTIVE true Option.none)
    let ss := SnapshotSet.mk name now snaps
    .ok (ss, ⟨st.sets ++ [ss]⟩)

/-- Modelled from the spec: `Manager.activate_snapshot_sets` activates
every member snapshot of every matching set. -/
def mgr_activate_snapshot_sets (st : ManagerState) (sel : Selection) :
    ManagerState :=
  ⟨st.sets.map (fun ss =>
    if selectionMatches sel ss then
      { ss with snapshots :=
          ss.snapshots.map (fun s => { s with status := SnapStatus.ACTIVE }) }
    else ss)⟩

/-- Modelled from the spec: `Manager.delete_snapshot_sets` deletes every
matching set together with all its member snapshots, returning the count
of sets deleted. -/
def mgr_delete_snapshot_sets (st : ManagerState) (sel : Selection) :
    ManagerState × Nat :=
  let keep := st.sets.filter (fun ss => !(selectionMatches sel ss))
  (⟨keep⟩, st.sets.length - keep.length)

/-- Modelled from the spec: `Manager.find_snapshot_sets` returns all
matching sets (an empty sequence when nothing matches). -/
def mgr_find_snapshot_sets (st : ManagerState) (sel : Selection) :
    List SnapshotSet :=
  st.sets.filter (fun ss => selectionMatches sel ss)

/-! ## Command layer (`snapm/command.py`) -/

/-- The exception classes caught by the two `try` blocks in
`create_snapset`: `(OSError, ValueError, TypeError)`. -/
def caughtByCreateSnapset : PyErr → Bool
  | .osError _ => true
  | .valueError _ => true
  | .typeError _ => true
  | _ => false

/-- Function `create_snapset(manager, name, mount_points, boot, rollback)`
from `command.py`.  The outcomes of the Manager's boot-entry calls (code
that is not under verification) are supplied as oracles `bootResult` and
`rollbackResult` (`Option.none` means success).  Mirrors the source: create the
set; if `boot or rollback`, activate it; attach the boot entry, and on a
caught failure log, delete the whole set and return `None`; then the same
for the rollback entry; otherwise return the set. -/
def create_snapset (st : ManagerState) (name : String)
    (mount_points : List String) (now : Nat)
    (bootResult rollbackResult : Option PyErr) (boot rollback : Bool) :
    Except PyErr (Option SnapshotSet × ManagerState) :=
  match mgr_create_snapshot_set st name mount_points now with
  | .error e => .error e
  | .ok (snapset, st1) =>
    let select := Selection.ofName snapset.name
    let st2 := if boot || rollback then mgr_activate_snapshot_sets st1 select else st1
    match (if boot then bootResult else Option.none) with
    | some e =>
      if caughtByCreateSnapset e then
        .ok (Option.none, (mgr_delete_snapshot_sets st2 select).1)
      else .error e
    | Option.none =>
      match (if rollback then rollbackResult else Option.none) with
      | some e =>
        if caughtByCreateSnapset e then
          .ok (Option.none, (mgr_delete_snapshot_sets st2 select).1)
        else .error e
      | Option.none => .ok (some snapset, st2)

/-- Function `delete_snapset(manager, selection)` from `command.py`.  The
Manager's `delete_snapshot_sets` is passed in as a function; the second
component records whether it was invoked. -/
def delete_snapset (mgr_delete : Selection → Nat) (selection : Selection) :
    Except PyErr Nat × Bool :=
  if !selection.is_single then
    (.error (.snapm .invalidIdentifier "Delete requires unique selection criteria"),
     false)
  else (.ok (mgr_delete selection), true)

/-- Function `rollback_snapset(manager, selection)` from `command.py`,
with the Manager's `rollback_snapshot_sets` passed in as a function and an
invocation flag as second component. -/
def rollback_snapset (mgr_rollback : Selection → Nat) (selection : Selection) :
    Except PyErr Nat × Bool :=
  if !selection.is_single then
    (.error (.snapm .invalidIdentifier "Roll back requires unique selection criteria"),
     false)
  else (.ok (mgr_rollback selection), true)

/-- True exactly for the Python builtin `ValueError`. -/
def PyErr.isValueError : PyErr → Bool
  | .valueError _ => true
  | _ => false

/-! ## Concrete fixtures used in witnesses and counterexamples -/

/-- An active member snapshot. -/
def snapActive : Snapshot :=
  ⟨"root-snap", "daily", "/dev/root", 5, "/", "lvm2", SnapStatus.ACTIVE, true, Option.none⟩

/-- An inactive member snapshot. -/
def snapInactive : Snapshot :=
  ⟨"home-snap", "daily", "/dev/home", 5, "/home", "lvm2", SnapStatus.INACTIVE, true, Option.none⟩

/-- An invalid member snapshot. -/
def snapInvalid : Snapshot :=
  ⟨"var-snap", "daily", "/dev/var", 5, "/var", "lvm2", SnapStatus.INVALID, false, Option.none⟩

/-- A snapshot whose provider raises `SnapmCalloutError` from
`set_autoactivate`. -/
def snapRaising : Snapshot :=
  ⟨"opt-snap", "daily", "/dev/opt", 5, "/opt", "lvm2", SnapStatus.ACTIVE, false,
   some SnapmErrKind.callout⟩

/-- `Selection(uuid=U)` for a concrete uuid string `U`. -/
def selUuidOnly : Selection :=
  { Selection.none with uuid := some "952f0e38-24a1-406d-adf6-0e9fb3c707d8" }

/-- `Selection(mount_points=["/x"])`. -/
def selMountPointsOnly : Selection :=
  { Selection.none with mount_points := some ["/x"] }

/-- `Selection(mount_point="/x")`: a snapshot-only criterion. -/
def selMountPointX : Selection :=
  { Selection.none with mount_point := some "/x" }

/-! ## C10: empty snapshot set -/

/-- C10: a `SnapshotSet` constructed with an empty snapshot list reports
status ACTIVE and autoactivate True — the `any`/`all` aggregations are
vacuous over zero members. -/
theorem empty_snapshot_set_active_and_autoactivate (n : String) (t : Nat) :
    (SnapshotSet.mk n t []).status = SnapStatus.ACTIVE ∧
      (SnapshotSet.mk n t []).autoactivate = true :=
  ⟨rfl, rfl⟩

/-! ## C2: autoactivate getter -/

/-- C2: the `SnapshotSet.autoactivate` getter returns True iff every
member snapshot reports autoactivate True (logical AND over all members). -/
theorem snapshot_set_autoactivate_iff_all (ss : SnapshotSet) :
    ss.autoactivate = true ↔ ∀ s ∈ ss.snapshots, s.autoactivate = true := by
  simp [SnapshotSet.autoactivate, List.all_eq_true]

/-- Witness for C2 at a concrete two-member set and at a set containing a
member with autoactivate disabled. -/
theorem snapshot_set_autoactivate_iff_all_witness :
    (SnapshotSet.mk "daily" 5 [snapActive, snapInactive]).autoactivate = true ∧
      ¬(SnapshotSet.mk "daily" 5 [snapActive, snapInvalid]).autoactivate = true :=
  ⟨(snapshot_set_autoactivate_iff_all _).mpr (by decide),
   fun h => by
    have := (snapshot_set_autoactivate_iff_all _).mp h snapInvalid (by decide)
    exact absurd this (by decide)⟩

/-! ## C9: is_single -/

/-- C9: `Selection.is_single` returns True iff the `name` field or the
`uuid` field is set; in particular `Selection(uuid=U)` is single and
`Selection(mount_points=["/x"])` is not. -/
theorem selection_is_single_iff_name_or_uuid :
    (∀ sel : Selection,
      sel.is_single = true ↔ (sel.name ≠ Option.none ∨ sel.uuid ≠ Option.none)) ∧
    selUuidOnly.is_single = true ∧ selMountPointsOnly.is_single = false :=
  ⟨fun sel => by
    simp [Selection.is_single, Option.isSome_iff_ne_none],
   rfl, rfl⟩

/-- Witness for C9: the iff applied at the two concrete selections of the
claim. -/
theorem selection_is_single_iff_name_or_uuid_witness :
    (selUuidOnly.name ≠ Option.none ∨ selUuidOnly.uuid ≠ Option.none) ∧
      Selection.is_single (Selection.ofName "daily") = true :=
  ⟨(selection_is_single_iff_name_or_uuid.1 selUuidOnly).mp rfl,
   (selection_is_single_iff_name_or_uuid.1 (Selection.ofName "daily")).mpr
     (Or.inl (by decide))⟩

/-! ## C8: CLI single-target enforcement -/

/-- C8: `delete_snapset` and `rollback_snapset` raise
`SnapmInvalidIdentifierError` without invoking the Manager when the
selection is not single, and forward the Manager call and return its
result when it is. -/
theorem cli_destructive_commands_enforce_single
    (mgr_delete mgr_rollback : Selection → Nat) (sel : Selection) :
    (sel.is_single = false →
      delete_snapset mgr_delete sel =
        (.error (.snapm .invalidIdentifier "Delete requires unique selection criteria"),
         false) ∧
      rollback_snapset mgr_rollback sel =
        (.error (.snapm .invalidIdentifier "Roll back requires unique selection criteria"),
         false)) ∧
    (sel.is_single = true →
      delete_snapset mgr_delete sel = (.ok (mgr_delete sel), true) ∧
      rollback_snapset mgr_rollback sel = (.ok (mgr_rollback sel), true)) := by
  constructor <;> intro h <;>
    simp [delete_snapset, rollback_snapset, h]

/-- Witness for C8: a non-single selection is rejected with the Manager
uninvoked, and a single selection forwards the Manager result. -/
theorem cli_destructive_commands_enforce_single_witness :
    delete_snapset (fun _ => 7) selMountPointsOnly =
      (.error (.snapm .invalidIdentifier "Delete requires unique selection criteria"),
       false) ∧
    rollback_snapset (fun _ => 7) (Selection.ofName "daily") = (.ok 7, true) :=
  ⟨((cli_destructive_commands_enforce_single (fun _ => 7) (fun _ => 7)
      selMountPointsOnly).1 rfl).1,
   ((cli_destructive_commands_enforce_single (fun _ => 7) (fun _ => 7)
      (Selection.ofName "daily")).2 rfl).2⟩

/-! ## C3: autoactivate setter fan-out -/

/-- The per-member effect of the loop body of the `autoactivate` setter:
the member is updated when the provider call succeeds and left unchanged
when it raises. -/
lemma set_autoactivate_loop_body (s : Snapshot) (value : Bool) :
    (match s.set_autoactivate value with
     | .ok s2 => s2
     | .error _ => s) =
      (match s.set_autoactivate_raises with
       | some _ => s
       | Option.none => { s with autoactivate := value }) := by
  unfold Snapshot.set_autoactivate
  cases s.set_autoactivate_raises <;> rfl

/-- C3: the `autoactivate` setter applies the requested value to every
member snapshot; a member whose provider call raises a `SnapmError` is
left unchanged (the failure is only logged) and every other member —
including every member after a failing one — still gets the requested
value.  The member count and order are preserved. -/
theorem autoactivate_setter_applies_to_every_member
    (ss : SnapshotSet) (value : Bool) :
    (ss.set_autoactivate value).nr_snapshots = ss.nr_snapshots ∧
    ∀ i : Nat,
      (ss.set_autoactivate value).snapshots[i]? =
        (ss.snapshots[i]?).map (fun s =>
          match s.set_autoactivate_raises with
          | some _ => s
          | Option.none => { s with autoactivate := value }) := by
  constructor
  · unfold SnapshotSet.nr_snapshots SnapshotSet.set_autoactivate
    exact List.length_map _ _
  · intro i
    simp only [SnapshotSet.set_autoactivate, List.getElem?_map]
    cases hx : ss.snapshots[i]? with
    | none => rfl
    | some s =>
      exact congrArg some (set_autoactivate_loop_body s value)

/-- Witness for C3: in a set whose second member's provider call raises,
the members before and after the failing one still receive the value and
the failing member is unchanged. -/
theorem autoactivate_setter_applies_to_every_member_witness :
    ((SnapshotSet.mk "daily" 5 [snapInvalid, snapRaising, snapInactive]).set_autoactivate
        true).snapshots[2]? = some { snapInactive with autoactivate := true } ∧
    ((SnapshotSet.mk "daily" 5 [snapInvalid, snapRaising, snapInactive]).set_autoactivate
        true).snapshots[1]? = some snapRaising := by
  constructor
  · rw [(autoactivate_setter_applies_to_every_member
      (SnapshotSet.mk "daily" 5 [snapInvalid, snapRaising, snapInactive]) true).2 2]
    rfl
  · rw [(autoactivate_setter_applies_to_every_member
      (SnapshotSet.mk "daily" 5 [snapInvalid, snapRaising, snapInactive]) true).2 1]
    rfl

/-! ## C5: check_valid_selection -/

/-- C5 counterexample to the claim as stated: validating a Selection that
carries the snapshot-only field `mount_point` with
`check_valid_selection(snapshot_set=True, snapshot=False)` raises the
builtin `ValueError`, not the `SnapmInvalidIdentifierError` variant of
the snapm error family. -/
theorem check_valid_selection_not_invalid_identifier :
    selMountPointX.check_valid_selection true false =
        .error (.valueError "Invalid criteria for selection type: mount_point") ∧
      (match selMountPointX.check_valid_selection true false with
        | .error e => e.isInvalidIdentifier
        | .ok _ => false) = false := by
  constructor <;> rfl

/-- C5 amended: `check_valid_selection` returns `None` exactly when every
field carrying a value lies inside the allowed scope, and any error it
raises for out-of-scope criteria is the builtin `ValueError`. -/
theorem check_valid_selection_ok_iff_in_scope (sel : Selection)
    (snapshot_set snapshot : Bool) :
    (sel.check_valid_selection snapshot_set snapshot = .ok () ↔
      ∀ a ∈ all_attrs, sel.attrHasValue a = true →
        a ∈ (if snapshot_set then snapshot_set_attrs else []) ++
            (if snapshot then snapshot_attrs else [])) ∧
    ∀ e, sel.check_valid_selection snapshot_set snapshot = .error e →
      e.isValueError = true := by
  have hmem : ∀ (l : List SelAttr) (a : SelAttr), l.contains a = true ↔ a ∈ l := by
    intro l a
    simp [List.contains, List.elem_iff]
  constructor
  · simp only [Selection.check_valid_selection]
    by_cases h : (all_attrs.filter (fun a => sel.attrHasValue a &&
        !(((if snapshot_set then snapshot_set_attrs else []) ++
           (if snapshot then snapshot_attrs else [])).contains a))).isEmpty = true
    · rw [if_pos h]
      simp only [true_iff]
      intro a ha hv
      have hp := (List.filter_eq_nil_iff.mp (List.isEmpty_iff.mp h)) a ha
      cases hb : (((if snapshot_set then snapshot_set_attrs else []) ++
          (if snapshot then snapshot_attrs else [])).contains a) with
      | true => exact (hmem _ a).mp hb
      | false => rw [hv, hb] at hp; exact absurd rfl hp
    · rw [if_neg h]
      constructor
      · intro hcontra
        exact absurd hcontra (by simp)
      · intro hall
        exfalso
        apply h
        rw [List.isEmpty_iff, List.filter_eq_nil_iff]
        intro a ha
        cases hv : sel.attrHasValue a with
        | false => simp [hv]
        | true =>
          have hc := (hmem _ a).mpr (hall a ha hv)
          intro hcontra
          rw [Bool.and_eq_true] at hcontra
          have h2 := hcontra.2
          rw [Bool.not_eq_true'] at h2
          rw [h2] at hc
          exact Bool.false_ne_true hc
  · intro e he
    simp only [Selection.check_valid_selection] at he
    by_cases h : (all_attrs.filter (fun a => sel.attrHasValue a &&
        !(((if snapshot_set then snapshot_set_attrs else []) ++
           (if snapshot then snapshot_attrs else [])).contains a))).isEmpty = true
    · rw [if_pos h] at he
      exact absurd he (by simp)
    · rw [if_neg h] at he
      injection he with h2
      rw [← h2]
      rfl

/-- Witness for C5 (amended): an in-scope selection passes, and the error
for the out-of-scope one is a `ValueError`. -/
theorem check_valid_selection_ok_iff_in_scope_witness :
    (Selection.ofName "daily").check_valid_selection true false = .ok () ∧
      PyErr.isValueError
        (.valueError "Invalid criteria for selection type: mount_point") = true :=
  ⟨(check_valid_selection_ok_iff_in_scope (Selection.ofName "daily") true false).1.mpr
      (by decide),
   (check_valid_selection_ok_iff_in_scope selMountPointX true false).2
      (.valueError "Invalid criteria for selection type: mount_point") rfl⟩

/-! ## C1: status aggregation -/

/-- ACTIVE is a left identity of `worst`. -/
lemma worst_active_left (b : SnapStatus) : SnapStatus.ACTIVE.worst b = b := by
  cases b <;> rfl

/-- ACTIVE is a right identity of `worst`. -/
lemma worst_active_right (a : SnapStatus) : a.worst SnapStatus.ACTIVE = a := by
  cases a <;> rfl

/-- `worst` is associative. -/
lemma worst_assoc (a b c : SnapStatus) :
    (a.worst b).worst c = a.worst (b.worst c) := by
  cases a <;> cases b <;> cases c <;> rfl

/-- The defining if-chain of `SnapshotSet.status`, as an equation. -/
lemma status_eq_iff_chain (ss : SnapshotSet) :
    ss.status =
      (if ss.snapshots.any (fun s => s.status == SnapStatus.INVALID) then
        SnapStatus.INVALID
      else if ss.snapshots.any (fun s => s.status == SnapStatus.INACTIVE) then
        SnapStatus.INACTIVE
      else SnapStatus.ACTIVE) := rfl

/-- Peeling one member off the set status computes the `worst` of its
status and the status of the rest. -/
lemma status_cons (n : String) (t : Nat) (hd : Snapshot) (tl : List Snapshot) :
    (SnapshotSet.mk n t (hd :: tl)).status =
      hd.status.worst (SnapshotSet.mk n t tl).status := by
  rw [status_eq_iff_chain, status_eq_iff_chain]
  cases h : hd.status <;>
    by_cases h1 : tl.any (fun s => s.status == SnapStatus.INVALID) = true <;>
    by_cases h2 : tl.any (fun s => s.status == SnapStatus.INACTIVE) = true <;>
    simp [List.any_cons, h, h1, h2, SnapStatus.worst, SnapStatus.sev]

/-- Folding `worst` over the members from any accumulator computes the
accumulator `worst` the set status. -/
lemma status_foldl (n : String) (t : Nat) (l : List Snapshot) (a : SnapStatus) :
    l.foldl (fun acc s => acc.worst s.status) a =
      a.worst (SnapshotSet.mk n t l).status := by
  induction l generalizing a with
  | nil =>
    rw [List.foldl_nil]
    show a = a.worst SnapStatus.ACTIVE
    rw [worst_active_right]
  | cons hd tl ih =>
    rw [List.foldl_cons, ih, status_cons, ← worst_assoc]

/-- C1: the set status is INVALID iff some member is INVALID, INACTIVE
iff some member is INACTIVE and none INVALID, and ACTIVE iff every member
is ACTIVE; equivalently it is the fold of the worst-case-wins ordering
INVALID > INACTIVE > ACTIVE over the members. -/
theorem snapshot_set_status_worst_case_wins (ss : SnapshotSet) :
    (ss.status = SnapStatus.INVALID ↔
      ∃ s ∈ ss.snapshots, s.status = SnapStatus.INVALID) ∧
    (ss.status = SnapStatus.INACTIVE ↔
      (∃ s ∈ ss.snapshots, s.status = SnapStatus.INACTIVE) ∧
        ¬∃ s ∈ ss.snapshots, s.status = SnapStatus.INVALID) ∧
    (ss.status = SnapStatus.ACTIVE ↔
      ∀ s ∈ ss.snapshots, s.status = SnapStatus.ACTIVE) ∧
    ss.status = ss.snapshots.foldl (fun acc s => acc.worst s.status)
      SnapStatus.ACTIVE := by
  have e1 : (ss.snapshots.any (fun s => s.status == SnapStatus.INVALID) = true) ↔
      ∃ s ∈ ss.snapshots, s.status = SnapStatus.INVALID := by
    simp [List.any_eq_true]
  have e2 : (ss.snapshots.any (fun s => s.status == SnapStatus.INACTIVE) = true) ↔
      ∃ s ∈ ss.snapshots, s.status = SnapStatus.INACTIVE := by
    simp [List.any_eq_true]
  have hfold : ss.status =
      ss.snapshots.foldl (fun acc s => acc.worst s.status) SnapStatus.ACTIVE := by
    rw [status_foldl ss.name ss.timestamp ss.snapshots SnapStatus.ACTIVE,
      worst_active_left]
  by_cases h1 : ss.snapshots.any (fun s => s.status == SnapStatus.INVALID) = true
  · have hst : ss.status = SnapStatus.INVALID := by
      rw [status_eq_iff_chain, if_pos h1]
    refine ⟨⟨fun _ => e1.mp h1, fun _ => hst⟩, ?_, ?_, hfold⟩
    · constructor
      · intro hcontra
        rw [hst] at hcontra
        exact absurd hcontra (by decide)
      · rintro ⟨_, hni⟩
        exact absurd (e1.mp h1) hni
    · constructor
      · intro hcontra
        rw [hst] at hcontra
        exact absurd hcontra (by decide)
      · intro hall
        obtain ⟨s0, hs0, hst0⟩ := e1.mp h1
        rw [hall s0 hs0] at hst0
        exact absurd hst0 (by decide)
  · by_cases h2 : ss.snapshots.any (fun s => s.status == SnapStatus.INACTIVE) = true
    · have hst : ss.status = SnapStatus.INACTIVE := by
        rw [status_eq_iff_chain, if_neg h1, if_pos h2]
      refine ⟨?_, ⟨fun _ => ⟨e2.mp h2, fun hex => h1 (e1.mpr hex)⟩, fun _ => hst⟩,
        ?_, hfold⟩
      · constructor
        · intro hcontra
          rw [hst] at hcontra
          exact absurd hcontra (by decide)
        · intro hex
          exact absurd (e1.mpr hex) h1
      · constructor
        · intro hcontra
          rw [hst] at hcontra
          exact absurd hcontra (by decide)
        · intro hall
          obtain ⟨s0, hs0, hst0⟩ := e2.mp h2
          rw [hall s0 hs0] at hst0
          exact absurd hst0 (by decide)
    · have hst : ss.status = SnapStatus.ACTIVE := by
        rw [status_eq_iff_chain, if_neg h1, if_neg h2]
      refine ⟨?_, ?_, ⟨fun _ => ?_, fun _ => hst⟩, hfold⟩
      · constructor
        · intro hcontra
          rw [hst] at hcontra
          exact absurd hcontra (by decide)
        · intro hex
          exact absurd (e1.mpr hex) h1
      · constructor
        · intro hcontra
          rw [hst] at hcontra
          exact absurd hcontra (by decide)
        · rintro ⟨hex, _⟩
          exact absurd (e2.mpr hex) h2
      · intro s hs
        cases hstt : s.status
        · rfl
        · exact absurd (e2.mpr ⟨s, hs, hstt⟩) h2
        · exact absurd (e1.mpr ⟨s, hs, hstt⟩) h1

/-- Witness for C1: the four aggregation examples of the spec —
[ACTIVE, ACTIVE] is ACTIVE, [ACTIVE, INACTIVE] is INACTIVE,
[ACTIVE, INVALID] is INVALID, and [INACTIVE, INVALID] is INVALID. -/
theorem snapshot_set_status_worst_case_wins_witness :
    (SnapshotSet.mk "daily" 5 [snapActive, snapActive]).status =
        SnapStatus.ACTIVE ∧
    (SnapshotSet.mk "daily" 5 [snapActive, snapInactive]).status =
        SnapStatus.INACTIVE ∧
    (SnapshotSet.mk "daily" 5 [snapActive, snapInvalid]).status =
        SnapStatus.INVALID ∧
    (SnapshotSet.mk "daily" 5 [snapInactive, snapInvalid]).status =
        SnapStatus.INVALID :=
  ⟨(snapshot_set_status_worst_case_wins _).2.2.1.mpr (by decide),
   (snapshot_set_status_worst_case_wins _).2.1.mpr (by decide),
   (snapshot_set_status_worst_case_wins _).1.mpr (by decide),
   (snapshot_set_status_worst_case_wins _).1.mpr (by decide)⟩

/-! ## C7: mount-point index and lookup -/

/-- Lookup steps through one dict entry. -/
lemma dictGet?_cons (x : String × Snapshot) (d : PyDict) (q : String) :
    dictGet? (x :: d) q = if x.1 == q then some x.2 else dictGet? d q := by
  unfold dictGet?
  rw [List.find?_cons]
  cases h : (x.1 == q) with
  | true => rw [if_pos rfl]; rfl
  | false => rw [if_neg (fun hc => Bool.false_ne_true hc)]

/-- Overwriting key `k` leaves lookups of other keys unchanged. -/
lemma dictGet?_map_update_ne (d : PyDict) (k q : String) (v : Snapshot)
    (hqk : q ≠ k) :
    dictGet? (d.map (fun p => if p.1 == k then (k, v) else p)) q =
      dictGet? d q := by
  induction d with
  | nil => rfl
  | cons x d ih =>
    rw [List.map_cons]
    by_cases hx : (x.1 == k) = true
    · rw [if_pos hx, dictGet?_cons, dictGet?_cons]
      have hxk : x.1 = k := eq_of_beq hx
      have h1 : (k == q) = false := beq_eq_false_iff_ne.mpr (fun h => hqk h.symm)
      have h2 : (x.1 == q) = false := by rw [hxk]; exact h1
      simp only [h1, h2, Bool.false_eq_true, if_false]
      exact ih
    · rw [if_neg hx, dictGet?_cons, dictGet?_cons]
      by_cases hq : (x.1 == q) = true
      · rw [if_pos hq, if_pos hq]
      · rw [if_neg hq, if_neg hq]
        exact ih

/-- Overwriting a present key makes lookup of that key return the new
value. -/
lemma dictGet?_map_update_hit (d : PyDict) (k : String) (v : Snapshot)
    (hany : d.any (fun p => p.1 == k) = true) :
    dictGet? (d.map (fun p => if p.1 == k then (k, v) else p)) k = some v := by
  induction d with
  | nil =>
    rw [List.any_nil] at hany
    exact absurd hany Bool.false_ne_true
  | cons x d ih =>
    rw [List.map_cons]
    by_cases hx : (x.1 == k) = true
    · rw [if_pos hx, dictGet?_cons]
      simp
    · rw [if_neg hx, dictGet?_cons, if_neg hx]
      apply ih
      rw [List.any_cons, Bool.or_eq_true] at hany
      rcases hany with h | h
      · exact absurd h hx
      · exact h

/-- Appending a fresh key: lookup of that key finds the new entry, other
lookups are unchanged. -/
lemma dictGet?_append_new (d : PyDict) (k q : String) (v : Snapshot)
    (hany : d.any (fun p => p.1 == k) = false) :
    dictGet? (d ++ [(k, v)]) q = if q = k then some v else dictGet? d q := by
  induction d with
  | nil =>
    rw [List.nil_append, dictGet?_cons]
    by_cases hq : q = k
    · rw [if_pos hq, if_pos (show ((k, v).1 == q) = true by rw [hq]; exact beq_self_eq_true k)]
    · rw [if_neg hq, if_neg (show ¬((k, v).1 == q) = true from
        fun h => hq (eq_of_beq h).symm)]
  | cons x d ih =>
    rw [List.any_cons, Bool.or_eq_false_iff] at hany
    rw [List.cons_append, dictGet?_cons, dictGet?_cons]
    by_cases hq : q = k
    · have hx : (x.1 == q) = false := by rw [hq]; exact hany.1
      rw [if_pos hq, hx]
      simp only [Bool.false_eq_true, if_false]
      rw [ih hany.2, if_pos hq]
    · rw [if_neg hq]
      by_cases hxq : (x.1 == q) = true
      · rw [if_pos hxq, if_pos hxq]
      · rw [if_neg hxq, if_neg hxq, ih hany.2, if_neg hq]

/-- Python dict assignment semantics for lookups, for `dictSet`. -/
lemma dictGet?_dictSet (d : PyDict) (k q : String) (v : Snapshot) :
    dictGet? (dictSet d k v) q = if q = k then some v else dictGet? d q := by
  unfold dictSet
  by_cases hany : d.any (fun p => p.1 == k) = true
  · rw [if_pos hany]
    by_cases hq : q = k
    · subst hq
      rw [if_pos rfl]
      exact dictGet?_map_update_hit d q v hany
    · rw [if_neg hq]
      exact dictGet?_map_update_ne d k q v hq
  · have h2 : d.any (fun p => p.1 == k) = false := by
      cases h : d.any (fun p => p.1 == k)
      · rfl
      · exact absurd h hany
    rw [if_neg hany]
    exact dictGet?_append_new d k q v h2

/-- The `_by_mount_point` index, built left to right with later members
overwriting earlier ones, answers lookups with the last member carrying
the key. -/
lemma by_mount_point_lookup (l : List Snapshot) (d : PyDict) (k : String) :
    dictGet? (l.foldl (fun acc s => dictSet acc s.mount_point s) d) k =
      (match l.reverse.find? (fun s => s.mount_point == k) with
       | some s => some s
       | Option.none => dictGet? d k) := by
  induction l generalizing d with
  | nil => rfl
  | cons hd tl ih =>
    rw [List.foldl_cons, ih, List.reverse_cons]
    cases hf : tl.reverse.find? (fun s => s.mount_point == k) with
    | some s =>
      have hap : (tl.reverse ++ [hd]).find? (fun s => s.mount_point == k) =
          some s := by
        rw [List.find?_append, hf]
        rfl
      rw [hap]
    | none =>
      have hap : (tl.reverse ++ [hd]).find? (fun s => s.mount_point == k) =
          [hd].find? (fun s => s.mount_point == k) := by
        rw [List.find?_append, hf]
        rfl
      rw [hap, dictGet?_dictSet, List.find?_cons]
      by_cases hk : k = hd.mount_point
      · have hb : (hd.mount_point == k) = true := by
          rw [hk]
          exact beq_self_eq_true hd.mount_point
        rw [if_pos hk, hb]
      · have hb : (hd.mount_point == k) = false :=
          beq_eq_false_iff_ne.mpr (fun h => hk h.symm)
        rw [if_neg hk, hb]
        rfl

/-- C7: `snapshot_by_mount_point p` returns the last member (in list
order) whose mount point is `p`, and raises `SnapmNotFoundError` exactly
when no member has mount point `p`. -/
theorem snapshot_by_mount_point_last_or_not_found (ss : SnapshotSet) (p : String) :
    (ss.snapshot_by_mount_point p =
      match ss.snapshots.reverse.find? (fun s => s.mount_point == p) with
      | some s => .ok s
      | Option.none => .error (.snapm .notFound
          ("Mount point " ++ p ++ " not found in snapset " ++ ss.name))) ∧
    (ss.snapshots.reverse.find? (fun s => s.mount_point == p) = Option.none ↔
      ∀ s ∈ ss.snapshots, s.mount_point ≠ p) := by
  constructor
  · unfold SnapshotSet.snapshot_by_mount_point SnapshotSet.by_mount_point
    rw [by_mount_point_lookup]
    cases ss.snapshots.reverse.find? (fun s => s.mount_point == p) <;> rfl
  · rw [List.find?_eq_none]
    simp [List.mem_reverse]

/-- Witness for C7: with two members sharing the mount point "/",
lookup returns the later one, and a missing mount point is a
`SnapmNotFoundError`. -/
theorem snapshot_by_mount_point_witness :
    (SnapshotSet.mk "daily" 5
        [snapActive, { snapInvalid with mount_point := "/" }]).snapshot_by_mount_point
        "/" = .ok { snapInvalid with mount_point := "/" } ∧
    (SnapshotSet.mk "daily" 5 [snapActive]).snapshot_by_mount_point "/var" =
      .error (.snapm .notFound "Mount point /var not found in snapset daily") := by
  constructor
  · rw [(snapshot_by_mount_point_last_or_not_found
      (SnapshotSet.mk "daily" 5
        [snapActive, { snapInvalid with mount_point := "/" }]) "/").1]
    rfl
  · rw [(snapshot_by_mount_point_last_or_not_found
      (SnapshotSet.mk "daily" 5 [snapActive]) "/var").1]
    rfl

/-! ## C4: UUID derivation -/

/-- Every decimal digit produced by `decDigits` is below ten. -/
lemma decDigits_lt_ten (n : Nat) : ∀ d ∈ decDigits n, d < 10 := by
  induction n using Nat.strong_induction_on with
  | _ n ih =>
    by_cases hn : n = 0
    · subst hn
      intro d hd
      rw [decDigits] at hd
      cases hd
    · obtain ⟨m, rfl⟩ := Nat.exists_eq_succ_of_ne_zero hn
      intro d hd
      rw [decDigits] at hd
      rcases List.mem_cons.mp hd with h | h
      · rw [h]
        exact Nat.mod_lt _ (by decide)
      · exact ih ((m + 1) / 10) (Nat.div_lt_self (Nat.succ_pos m) (by decide)) d h

/-- `decDigits` returns the empty list only for zero. -/
lemma decDigits_eq_nil_iff (n : Nat) : decDigits n = [] ↔ n = 0 := by
  constructor
  · intro h
    by_cases hn : n = 0
    · exact hn
    · obtain ⟨k, rfl⟩ := Nat.exists_eq_succ_of_ne_zero hn
      rw [decDigits] at h
      exact absurd h (by simp)
  · intro h
    rw [h, decDigits]

/-- The decimal digit list determines the number. -/
lemma decDigits_inj : ∀ n m : Nat, decDigits n = decDigits m → n = m := by
  intro n
  induction n using Nat.strong_induction_on with
  | _ n ih =>
    intro m h
    by_cases hn : n = 0
    · subst hn
      by_cases hm : m = 0
      · exact hm.symm
      · obtain ⟨j, rfl⟩ := Nat.exists_eq_succ_of_ne_zero hm
        rw [decDigits, decDigits] at h
        exact absurd h (by simp)
    · obtain ⟨i, rfl⟩ := Nat.exists_eq_succ_of_ne_zero hn
      by_cases hm : m = 0
      · subst hm
        rw [decDigits, decDigits] at h
        exact absurd h (by simp)
      · obtain ⟨j, rfl⟩ := Nat.exists_eq_succ_of_ne_zero hm
        rw [decDigits, decDigits] at h
        injection h with h1 h2
        have h3 := ih ((i + 1) / 10)
          (Nat.div_lt_self (Nat.succ_pos i) (by decide)) ((j + 1) / 10) h2
        have e1 := Nat.div_add_mod (i + 1) 10
        have e2 := Nat.div_add_mod (j + 1) 10
        omega

/-- Distinct decimal digits render to distinct characters. -/
lemma digitChar_inj : ∀ d < 10, ∀ e < 10, digitChar d = digitChar e → d = e := by
  decide

/-- Rendering a digit list to characters is injective on digit lists. -/
lemma map_digitChar_inj : ∀ l1 l2 : List Nat, (∀ d ∈ l1, d < 10) →
    (∀ d ∈ l2, d < 10) → l1.map digitChar = l2.map digitChar → l1 = l2 := by
  intro l1
  induction l1 with
  | nil =>
    intro l2 _ _ h
    cases l2 with
    | nil => rfl
    | cons y ys => exact absurd h (by simp)
  | cons x xs ih =>
    intro l2 h1 h2 h
    cases l2 with
    | nil => exact absurd h (by simp)
    | cons y ys =>
      rw [List.map_cons, List.map_cons] at h
      injection h with hh ht
      have hxy := digitChar_inj x (h1 x (List.mem_cons_self x xs))
        y (h2 y (List.mem_cons_self y ys)) hh
      rw [hxy, ih ys (fun d hd => h1 d (List.mem_cons_of_mem x hd))
        (fun d hd => h2 d (List.mem_cons_of_mem y hd)) ht]

/-- Only zero renders to the string "0". -/
lemma eq_zero_of_pyStr_eq_zero (m : Nat) (h : pyStr m = "0") : m = 0 := by
  by_cases hm : m = 0
  · exact hm
  · exfalso
    unfold pyStr at h
    rw [if_neg hm] at h
    have hdata := congrArg String.data h
    have h0 : "0".data = ([0] : List Nat).map digitChar := rfl
    rw [h0] at hdata
    have hrev := map_digitChar_inj (decDigits m).reverse [0]
      (fun d hd => decDigits_lt_ten m d (List.mem_reverse.mp hd))
      (by intro d hd; rw [List.mem_singleton.mp hd]; decide)
      hdata
    have hdd : decDigits m = [0] := by
      rw [← List.reverse_reverse (decDigits m), hrev]
      rfl
    obtain ⟨j, rfl⟩ := Nat.exists_eq_succ_of_ne_zero hm
    rw [decDigits] at hdd
    injection hdd with hmod hrest
    have hdiv : (j + 1) / 10 = 0 := (decDigits_eq_nil_iff _).mp hrest
    have := Nat.div_add_mod (j + 1) 10
    omega

/-- The model of Python `str` on nonnegative integers is injective. -/
lemma pyStr_inj (n m : Nat) (h : pyStr n = pyStr m) : n = m := by
  by_cases hn : n = 0
  · subst hn
    exact (eq_zero_of_pyStr_eq_zero m (by rw [← h]; rfl)).symm
  · by_cases hm : m = 0
    · subst hm
      exact absurd (eq_zero_of_pyStr_eq_zero n (by rw [h]; rfl)) hn
    · unfold pyStr at h
      rw [if_neg hn, if_neg hm] at h
      have hdata := congrArg String.data h
      have hrev := map_digitChar_inj (decDigits n).reverse (decDigits m).reverse
        (fun d hd => decDigits_lt_ten n d (List.mem_reverse.mp hd))
        (fun d hd => decDigits_lt_ten m d (List.mem_reverse.mp hd))
        hdata
      exact decDigits_inj n m (List.reverse_injective hrev)

/-- C4: set UUID derivation is deterministic in `(name, timestamp)` and
injective in the timestamp for a fixed name, and a snapshot UUID is a pure
function of the snapshot name. -/
theorem uuid_derivation_deterministic_and_timestamp_sensitive
    (s1 s2 : SnapshotSet) (t1 t2 : Snapshot) :
    (s1.name = s2.name → s1.timestamp = s2.timestamp → s1.uuid = s2.uuid) ∧
    (s1.name = s2.name → s1.timestamp ≠ s2.timestamp → s1.uuid ≠ s2.uuid) ∧
    (t1.name = t2.name → t1.uuid = t2.uuid) := by
  refine ⟨fun h1 h2 => ?_, fun h1 h2 hu => ?_, fun h => ?_⟩
  · unfold SnapshotSet.uuid uuid5
    rw [h1, h2]
  · apply h2
    unfold SnapshotSet.uuid uuid5 at hu
    have hdata : s1.name ++ pyStr s1.timestamp = s2.name ++ pyStr s2.timestamp :=
      congrArg PyUUID.data hu
    rw [h1] at hdata
    have hs : pyStr s1.timestamp = pyStr s2.timestamp := by
      have hl := congrArg String.data hdata
      rw [String.data_append, String.data_append] at hl
      exact String.ext (List.append_cancel_left hl)
    exact pyStr_inj _ _ hs
  · unfold Snapshot.uuid uuid5
    rw [h]

/-- Witness for C4: equal name and timestamp give equal set UUIDs, a
changed timestamp changes the set UUID, and two snapshots sharing a name
share a UUID whatever their other fields. -/
theorem uuid_derivation_witness :
    (SnapshotSet.mk "daily" 17 []).uuid =
        (SnapshotSet.mk "daily" 17 [snapActive]).uuid ∧
    (SnapshotSet.mk "daily" 17 []).uuid ≠ (SnapshotSet.mk "daily" 18 []).uuid ∧
    (Snapshot.mk "nm" "a" "o1" 1 "/" "p1" SnapStatus.ACTIVE true Option.none).uuid =
      (Snapshot.mk "nm" "b" "o2" 2 "/x" "p2" SnapStatus.INVALID false
        (some SnapmErrKind.callout)).uuid :=
  ⟨(uuid_derivation_deterministic_and_timestamp_sensitive
      (SnapshotSet.mk "daily" 17 []) (SnapshotSet.mk "daily" 17 [snapActive])
      snapActive snapActive).1 rfl rfl,
   (uuid_derivation_deterministic_and_timestamp_sensitive
      (SnapshotSet.mk "daily" 17 []) (SnapshotSet.mk "daily" 18 [])
      snapActive snapActive).2.1 rfl (by decide),
   (uuid_derivation_deterministic_and_timestamp_sensitive
      (SnapshotSet.mk "daily" 17 []) (SnapshotSet.mk "daily" 17 [])
      (Snapshot.mk "nm" "a" "o1" 1 "/" "p1" SnapStatus.ACTIVE true Option.none)
      (Snapshot.mk "nm" "b" "o2" 2 "/x" "p2" SnapStatus.INVALID false
        (some SnapmErrKind.callout))).2.2 rfl⟩

/-! ## C6: create_snapset unwinds on boot/rollback entry failure -/

/-- The observable outcome the claim requires of a failed
boot/rollback-entry attachment: `create_snapset` returned `None` and the
named set is no longer discoverable. -/
def deletedAndNone (r : Except PyErr (Option SnapshotSet × ManagerState))
    (name : String) : Prop :=
  match r with
  | .ok (Option.none, stf) => mgr_find_snapshot_sets stf (Selection.ofName name) = []
  | _ => False

/-- Deletion by a selection removes everything that selection matches. -/
lemma find_after_delete (st : ManagerState) (sel : Selection) :
    mgr_find_snapshot_sets (mgr_delete_snapshot_sets st sel).1 sel = [] := by
  unfold mgr_find_snapshot_sets mgr_delete_snapshot_sets
  rw [List.filter_filter]
  apply List.filter_eq_nil_iff.mpr
  intro ss _
  cases h : selectionMatches sel ss <;> simp [h]

/-- C6: in `create_snapset`, once `create_snapshot_set` has succeeded, a
caught failure while attaching the requested boot entry (first conjunct,
any rollback flag and rollback oracle) or the requested rollback entry
(second conjunct) deletes the whole snapshot set before returning `None`,
so the set is no longer discoverable by name. -/
theorem create_snapset_unwinds_on_entry_failure
    (st : ManagerState) (name : String) (mount_points : List String) (now : Nat)
    (rollbackResult : Option PyErr) (e : PyErr)
    (hnew : st.sets.any (fun ss => ss.name == name) = false)
    (hcaught : caughtByCreateSnapset e = true) :
    (∀ rollback : Bool,
      deletedAndNone
        (create_snapset st name mount_points now (some e) rollbackResult
          true rollback) name) ∧
    deletedAndNone
      (create_snapset st name mount_points now Option.none (some e) false true)
      name := by
  have hnotin : ¬(st.sets.any (fun ss => ss.name == name) = true) := by
    rw [hnew]
    exact Bool.false_ne_true
  constructor
  · intro rollback
    unfold create_snapset mgr_create_snapshot_set
    rw [if_neg hnotin]
    simp only [Bool.true_or, if_pos]
    rw [if_pos hcaught]
    exact find_after_delete _ _
  · unfold create_snapset mgr_create_snapshot_set
    rw [if_neg hnotin]
    simp only [Bool.false_or, if_pos]
    rw [if_pos hcaught]
    exact find_after_delete _ _

/-- Witness for C6: on an empty manager state, creating "daily" over two
mount points with a boot entry that fails with `OSError` leaves no
discoverable set and returns `None`. -/
theorem create_snapset_unwinds_witness :
    deletedAndNone
      (create_snapset ⟨[]⟩ "daily" ["/", "/home"] 5
        (some (PyErr.osError "boom")) Option.none true false) "daily" :=
  (create_snapset_unwinds_on_entry_failure ⟨[]⟩ "daily" ["/", "/home"] 5
    Option.none (PyErr.osError "boom") rfl rfl).1 false

end Snapm
